import Mathlib

/-!
Verification development for the tokio/bevy bridging core of this repository
(files src/native/hub/src/async_tasks.rs and src/native/hub/src/async_event.rs).
The Rust code is shallowly embedded: machine integers (usize on the 64-bit
targets this crate builds for) are natural numbers reduced modulo 2 ^ 64 where
the code wraps, channels are lists, the async suspension of a sleeping task is
a list of observations made at the loop head, and a panic is an explicit
outcome constructor.
-/

/-! ## usize arithmetic -/

/-- Modulus of the usize type on the 64 bit targets this crate builds for. -/
def USIZE_MOD : Nat := 2 ^ 64

/-- usize::wrapping_add. -/
def wrappingAdd (a b : Nat) : Nat := (a + b) % USIZE_MOD

/-! ## UpdateTicks (async_tasks.rs lines 11 to 25)

The resource holds an AtomicUsize. increment_ticks performs
fetch_add(1, SeqCst) (which wraps the stored counter) and returns
old.wrapping_add(1). The first component below is the new stored value of the
atomic, the second is the value the function returns. The watch send that
follows the fetch_add cannot fail while a TokioTasksHandle clone of the
receiver is alive, which is the configuration modelled here. -/

def increment_ticks (t : Nat) : Nat × Nat :=
  ((t + 1) % USIZE_MOD, wrappingAdd t 1)

/-- The stored counter after k consecutive increment_ticks calls. -/
def advanceN (t : Nat) : Nat → Nat
  | 0 => t
  | k + 1 => (increment_ticks (advanceN t k)).1

/-! ## TaskContext::sleep_updates (async_tasks.rs lines 207 to 217)

The task computes target_tick = ticks.load().wrapping_add(n) and then loops:
while ticks.load() < target_tick, await update_watch_rx.changed(); an Err from
changed() makes the function return early. Each loop head load of the atomic
is one observation; the watch channel coalesces, so consecutive observations
may jump by more than one. A WatchEvent is what one wait-then-reload cycle
yields: either the newly observed counter value, or the discovery that the
watch sender was dropped. -/

inductive WatchEvent
  | advanced (observed : Nat)
  | closed
  deriving DecidableEq

/-- Which of the two exit paths of the while loop was taken. The Rust function
returns the unit value on both paths; this tag is model instrumentation that
records the control path. -/
inductive SleepExit
  | reachedTarget
  | watchErr
  deriving DecidableEq

/-- The target computed at the top of sleep_updates: observed tick plus the
requested number of updates, with usize wrapping. -/
def target_tick (start n : Nat) : Nat := wrappingAdd start n

/-- The while loop of sleep_updates. cur is the counter value of the latest
load; the result is none when the task stays suspended forever (no further
observation ever arrives), otherwise the exit path and the counter value
observed at exit. -/
def sleepLoop (target : Nat) : List WatchEvent → Nat → Option (SleepExit × Nat)
  | evs, cur =>
    if cur < target then
      match evs with
      | [] => none
      | WatchEvent.closed :: _ => some (SleepExit.watchErr, cur)
      | WatchEvent.advanced t :: rest => sleepLoop target rest t
    else
      some (SleepExit.reachedTarget, cur)

/-- sleep_updates as the caller sees it: the Rust signature returns the unit
value whichever exit path the loop takes, so both exits collapse to some ();
none means the task never resumes. -/
def sleep_updates (start n : Nat) (evs : List WatchEvent) : Option Unit :=
  (sleepLoop (target_tick start n) evs start).map fun _ => ()

/-! ## Main thread callbacks (async_tasks.rs lines 76 to 239)

The Bevy world is split into the parts the embedding tracks by name (the
UpdateTicks resource, the TokioTasksHandle resource, the callback queue the
handle owns) and an opaque remainder sigma holding everything else. A main
thread callback receives a MainThreadContext and may mutate the remainder; it
can observe the current tick and whether the TokioTasksHandle resource is in
the world while it runs. -/

structure MainThreadContext (σ : Type) where
  worldRest : σ
  handleInWorld : Bool
  current_tick : Nat

def MainThreadCallback (σ : Type) : Type := MainThreadContext σ → σ

/-- TokioTasksHandle::execute_main_thread_work: try_recv callbacks in FIFO
order until the queue is empty, invoking each with a context for the given
tick over the world state left by its predecessors. hp records whether the
TokioTasksHandle resource is in the world at the time of the calls. -/
def execute_main_thread_work (cbs : List (MainThreadCallback σ)) (hp : Bool)
    (tick : Nat) (w0 : σ) : σ :=
  cbs.foldl (fun w cb => cb { worldRest := w, handleInWorld := hp, current_tick := tick }) w0

/-- The named parts of the Bevy world that tick_handle_update touches. -/
structure HubWorld (σ : Type) where
  hasTicksRes : Bool
  ticks : Nat
  handlePresent : Bool
  queue : List (MainThreadCallback σ)
  rest : σ

/-- The exclusive system tick_handle_update: if the UpdateTicks resource is
absent it returns at once; otherwise it increments the counter, then removes
the TokioTasksHandle resource (when present), drains every queued callback
with the new tick while the resource is out of the world, and reinserts the
resource. -/
def tick_handle_update (w : HubWorld σ) : HubWorld σ :=
  if w.hasTicksRes then
    let newTick := (increment_ticks w.ticks).2
    if w.handlePresent then
      { w with
          ticks := (increment_ticks w.ticks).1,
          handlePresent := true,
          queue := [],
          rest := execute_main_thread_work w.queue false newTick w.rest }
    else
      { w with ticks := (increment_ticks w.ticks).1 }
  else
    w

/-! ## TaskContext::run_on_main_thread (async_tasks.rs lines 223 to 239)

The task creates a oneshot channel, sends a wrapper closure into the
unbounded queue, and awaits the oneshot receiver. The source panics in both
failure positions: panic if the queue send fails, and expect when the oneshot
receiver completes without a value because the wrapper was destroyed without
running. The oneshot slot is an Option: some value once the wrapper has sent,
none when the sender was dropped unfulfilled. -/

inductive PanicMsg
  | sendToMainFailed
  | recvFromMainFailed
  deriving DecidableEq

inductive RunOutcome (α : Type)
  | ok (value : α)
  | panicked (msg : PanicMsg)
  deriving DecidableEq

/-- The wrapper closure enqueued by run_on_main_thread: it runs the user
runnable on the given context and sends the output through the oneshot slot.
Result: the world the runnable produced, and the fulfilled slot. -/
def wrapRunnable (f : MainThreadContext σ → σ × α) :
    MainThreadContext σ → σ × Option α :=
  fun ctx => ((f ctx).1, some (f ctx).2)

/-- Awaiting the oneshot receiver: a fulfilled slot yields the value; a slot
whose sender was dropped unfulfilled makes the expect call panic. -/
def awaitOutput : Option α → RunOutcome α
  | some v => RunOutcome.ok v
  | none => RunOutcome.panicked PanicMsg.recvFromMainFailed

/-- Whether the enqueued wrapper was eventually invoked by the pump, or was
destroyed without running (for example because the world was dropped with the
callback still queued). -/
inductive CallbackFate
  | ran
  | droppedUnrun
  deriving DecidableEq

/-- run_on_main_thread from the point of view of the calling task. queueOpen
is whether the unbounded channel send succeeds; when it fails the source
panics instead of returning. ctx is the context the pump hands the wrapper
when it runs it. -/
def run_on_main_thread (queueOpen : Bool) (fate : CallbackFate)
    (f : MainThreadContext σ → σ × α) (ctx : MainThreadContext σ) : RunOutcome α :=
  if queueOpen then
    match fate with
    | CallbackFate.ran => awaitOutput (wrapRunnable f ctx).2
    | CallbackFate.droppedUnrun => awaitOutput none
  else
    RunOutcome.panicked PanicMsg.sendToMainFailed

/-! ## Schedule placement (lib.rs lines 38 to 64, async_event.rs lines 27 to 30,
async_tasks.rs line 68)

add_event_channel registers the channel_to_event system in the PreUpdate
schedule; TokioTasksPlugin registers tick_handle_update in the Update
schedule, and inside that one system the counter is incremented before the
queue is drained. One App::update run executes the Main schedule, whose
labels run in the fixed Bevy order below, so the steps of one world update
are obtained by flattening the registered systems along that order. -/

inductive PumpStep
  | drainBridgeStep
  | advanceTickStep
  | drainQueueStep
  deriving DecidableEq

inductive ScheduleLabel
  | first
  | preUpdate
  | stateTransition
  | runFixedMainLoop
  | update
  | postUpdate
  | last
  deriving DecidableEq, BEq

structure SystemReg where
  schedule : ScheduleLabel
  steps : List PumpStep

/-- The systems the app registers: channel_to_event in PreUpdate, and
tick_handle_update (advance, then drain the main thread queue) in Update. -/
def registeredSystems : List SystemReg :=
  [ { schedule := ScheduleLabel.preUpdate, steps := [PumpStep.drainBridgeStep] },
    { schedule := ScheduleLabel.update,
      steps := [PumpStep.advanceTickStep, PumpStep.drainQueueStep] } ]

/-- The fixed order of the Bevy Main schedule labels. -/
def mainScheduleOrder : List ScheduleLabel :=
  [ ScheduleLabel.first, ScheduleLabel.preUpdate, ScheduleLabel.stateTransition,
    ScheduleLabel.runFixedMainLoop, ScheduleLabel.update, ScheduleLabel.postUpdate,
    ScheduleLabel.last ]

/-- The pump steps of one world update, in execution order. -/
def worldUpdateTrace : List PumpStep :=
  (mainScheduleOrder.map fun l =>
    ((registeredSystems.filter fun s => s.schedule == l).map SystemReg.steps).flatten).flatten

/-! ## Event channel bridges (async_event.rs)

add_event_channel for a type T asserts that no ChannelReceiver resource for T
is in the world yet (the assertion failure is the DuplicateBridge setup
error), then stores the receiver and registers the channel_to_event drain
system. Two event types are modelled as the two slots of an EventApp; a
channel is the list of values sent but not yet received, and the world event
storage for a type is the list of values published for it. -/

inductive RegisterError
  | DuplicateBridge
  deriving DecidableEq

structure EventApp (α β : Type) where
  recvA : Option (List α)
  recvB : Option (List β)
  eventsA : List α
  eventsB : List β

def add_event_channel_A (app : EventApp α β) (receiver : List α) :
    Except RegisterError (EventApp α β) :=
  if app.recvA.isSome then Except.error RegisterError.DuplicateBridge
  else Except.ok { app with recvA := some receiver }

def add_event_channel_B (app : EventApp α β) (receiver : List β) :
    Except RegisterError (EventApp α β) :=
  if app.recvB.isSome then Except.error RegisterError.DuplicateBridge
  else Except.ok { app with recvB := some receiver }

/-- The loop body of the channel_to_event system: try_recv until the channel
reports no value, publishing each received value to the event storage via
EventWriter::send. Result: the channel and the storage after the drain. -/
def channel_to_event : List γ → List γ → List γ × List γ
  | [], events => ([], events)
  | x :: rest, events => channel_to_event rest (events ++ [x])

/-- The drain system instance for the first event type: it runs over the
registered receiver resource and the event storage for that type only. -/
def drain_A (app : EventApp α β) : EventApp α β :=
  match app.recvA with
  | none => app
  | some chan =>
    let r := channel_to_event chan app.eventsA
    { app with recvA := some r.1, eventsA := r.2 }

/-- The drain system instance for the second event type. -/
def drain_B (app : EventApp α β) : EventApp α β :=
  match app.recvB with
  | none => app
  | some chan =>
    let r := channel_to_event chan app.eventsB
    { app with recvB := some r.1, eventsB := r.2 }

/-! ## Helper lemmas -/

theorem USIZE_MOD_one_lt : 1 < USIZE_MOD := by norm_num [USIZE_MOD]

/-- Once the loop head observes a value at or past the target, the loop exits
at once with that value. -/
theorem sleepLoop_not_lt (target cur : Nat) (evs : List WatchEvent)
    (h : ¬ cur < target) :
    sleepLoop target evs cur = some (SleepExit.reachedTarget, cur) := by
  rw [sleepLoop.eq_def]
  simp [h]

/-- One wait cycle that finds the watch sender dropped makes the loop return
early. -/
theorem sleepLoop_closed_step (target cur : Nat) (rest : List WatchEvent)
    (h : cur < target) :
    sleepLoop target (WatchEvent.closed :: rest) cur
      = some (SleepExit.watchErr, cur) := by
  rw [sleepLoop.eq_def]
  simp [h]

/-- One wait cycle that observes a new counter value loops with it. -/
theorem sleepLoop_advanced_step (target cur t : Nat) (rest : List WatchEvent)
    (h : cur < target) :
    sleepLoop target (WatchEvent.advanced t :: rest) cur
      = sleepLoop target rest t := by
  rw [sleepLoop.eq_def]
  simp [h]

/-- A loop still below the target with no further observation stays
suspended. -/
theorem sleepLoop_nil_step (target cur : Nat) (h : cur < target) :
    sleepLoop target [] cur = none := by
  rw [sleepLoop.eq_def]
  simp [h]

/-- Soundness of the exit check: when the loop exits through the while
condition, the value observed at exit is at or past the target. -/
theorem sleepLoop_reached_ge (target : Nat) :
    ∀ (evs : List WatchEvent) (cur c : Nat),
      sleepLoop target evs cur = some (SleepExit.reachedTarget, c) → target ≤ c := by
  intro evs
  induction evs with
  | nil =>
    intro cur c h
    by_cases hlt : cur < target
    · rw [sleepLoop_nil_step target cur hlt] at h
      exact absurd h (by simp)
    · rw [sleepLoop_not_lt target cur [] hlt] at h
      have : cur = c := by simpa using h
      omega
  | cons e rest ih =>
    intro cur c h
    by_cases hlt : cur < target
    · cases e with
      | closed =>
        rw [sleepLoop_closed_step target cur rest hlt] at h
        simp at h
      | advanced t =>
        rw [sleepLoop_advanced_step target cur t rest hlt] at h
        exact ih t c h
    · rw [sleepLoop_not_lt target cur _ hlt] at h
      have : cur = c := by simpa using h
      omega

/-- Liveness of the threshold check: as soon as some loop head observation is
at or past the target (with the watch channel still open up to there), the
loop exits through the while condition. -/
theorem sleepLoop_resumes (target t : Nat) (rest : List WatchEvent) :
    ∀ (pre : List WatchEvent), WatchEvent.closed ∉ pre → target ≤ t →
      ∀ cur, ∃ c, sleepLoop target (pre ++ WatchEvent.advanced t :: rest) cur
        = some (SleepExit.reachedTarget, c) ∧ target ≤ c := by
  intro pre
  induction pre with
  | nil =>
    intro _ ht cur
    by_cases hlt : cur < target
    · refine ⟨t, ?_, ht⟩
      rw [List.nil_append, sleepLoop_advanced_step target cur t rest hlt]
      exact sleepLoop_not_lt target t rest (by omega)
    · exact ⟨cur, by simpa using sleepLoop_not_lt target cur _ hlt, by omega⟩
  | cons e pre2 ih =>
    intro hmem ht cur
    have he : e ≠ WatchEvent.closed := by
      intro hcl
      exact hmem (by simp [hcl])
    cases e with
    | closed => exact absurd rfl he
    | advanced v =>
      by_cases hlt : cur < target
      · have hmem2 : WatchEvent.closed ∉ pre2 := fun hc => hmem (by simp [hc])
        obtain ⟨c, hc, hge⟩ := ih hmem2 ht v
        refine ⟨c, ?_, hge⟩
        rw [List.cons_append, sleepLoop_advanced_step target cur v _ hlt]
        exact hc
      · exact ⟨cur, by simpa using sleepLoop_not_lt target cur _ hlt, by omega⟩

/-- When every observation before the channel closure is below the target,
the loop exits through the early return path. -/
theorem sleepLoop_closes (target : Nat) (rest : List WatchEvent) :
    ∀ (pre : List WatchEvent),
      (∀ e ∈ pre, ∃ v, e = WatchEvent.advanced v ∧ v < target) →
      ∀ cur, cur < target →
      ∃ c, sleepLoop target (pre ++ WatchEvent.closed :: rest) cur
        = some (SleepExit.watchErr, c) ∧ c < target := by
  intro pre
  induction pre with
  | nil =>
    intro _ cur hlt
    exact ⟨cur, by rw [List.nil_append, sleepLoop_closed_step target cur rest hlt], hlt⟩
  | cons e pre2 ih =>
    intro hobs cur hlt
    obtain ⟨v, hev, hv⟩ := hobs e (by simp)
    subst hev
    obtain ⟨c, hc, hcl⟩ := ih (fun e he => hobs e (by simp [he])) v hv
    refine ⟨c, ?_, hcl⟩
    rw [List.cons_append, sleepLoop_advanced_step target cur v _ hlt]
    exact hc

/-- channel_to_event empties the channel and appends its contents, in order,
to the event storage. -/
theorem channel_to_event_spec (γ : Type) :
    ∀ (chan events : List γ), channel_to_event chan events = ([], events ++ chan) := by
  intro chan
  induction chan with
  | nil => intro events; simp [channel_to_event]
  | cons x rest ih => intro events; simp [channel_to_event, ih]

/-! ## Claim theorems -/

/-- Claim C1: for every closure f and every value v such that f returns v on
the MainThreadContext it is invoked with, a task that calls
run_on_main_thread(f) and is resumed receives exactly v: the wrapper sends
the return value of f into the oneshot slot, and the await returns that
value unchanged. -/
theorem run_on_main_thread_delivers (σ α : Type)
    (f : MainThreadContext σ → σ × α) (ctx : MainThreadContext σ) :
    run_on_main_thread true CallbackFate.ran f ctx = RunOutcome.ok (f ctx).2 := rfl

/-- Claim C2 counterexample: the claim says a failed enqueue returns the
typed failure WorldUnavailable and a dropped response slot returns
ResponseLost, and that the call never aborts the process. On the source, at
the concrete inputs below, both failure positions panic instead: the send
failure hits the panic call in run_on_main_thread, and the unfulfilled slot
hits the expect on the oneshot receiver. -/
theorem run_on_main_thread_panic_counterexample :
    run_on_main_thread false CallbackFate.ran
        (fun c => (c.worldRest, c.current_tick))
        ({ worldRest := (0 : Nat), handleInWorld := true, current_tick := 5 })
      = RunOutcome.panicked PanicMsg.sendToMainFailed ∧
    run_on_main_thread true CallbackFate.droppedUnrun
        (fun c => (c.worldRest, c.current_tick))
        ({ worldRest := (0 : Nat), handleInWorld := true, current_tick := 5 })
      = RunOutcome.panicked PanicMsg.recvFromMainFailed := ⟨rfl, rfl⟩

/-- Claim C2 (amended): when the enqueue into the main thread queue fails,
run_on_main_thread panics with the send failure message, and when the
response slot is dropped without being fulfilled, the awaiting expect panics
with the receive failure message; neither case yields a typed recoverable
failure, the process aborts. -/
theorem run_on_main_thread_failure_panics (σ α : Type) (fate : CallbackFate)
    (f : MainThreadContext σ → σ × α) (ctx : MainThreadContext σ) :
    run_on_main_thread false fate f ctx
      = RunOutcome.panicked PanicMsg.sendToMainFailed ∧
    run_on_main_thread true CallbackFate.droppedUnrun f ctx
      = RunOutcome.panicked PanicMsg.recvFromMainFailed := by
  cases fate <;> exact ⟨rfl, rfl⟩

/-- Claim C3: a task that calls sleep_updates(n) when the counter reads
start resumes through the while condition only when the observed counter is
at or past the target; it does resume as soon as any single observation is
at or past the target, even when that observation jumps over several
advances at once (the watch channel coalesces); and without usize overflow
the target is exactly start + n. The loop is a function of the observation
list, so a resuming run exits exactly once. -/
theorem sleep_updates_threshold_coalescing (start n t : Nat)
    (pre rest : List WatchEvent)
    (hpre : WatchEvent.closed ∉ pre) (ht : target_tick start n ≤ t) :
    (∀ (evs : List WatchEvent) (c : Nat),
        sleepLoop (target_tick start n) evs start
          = some (SleepExit.reachedTarget, c) →
        target_tick start n ≤ c) ∧
    (∃ c, sleepLoop (target_tick start n) (pre ++ WatchEvent.advanced t :: rest) start
        = some (SleepExit.reachedTarget, c) ∧ target_tick start n ≤ c) ∧
    (start + n < USIZE_MOD → target_tick start n = start + n) := by
  refine ⟨fun evs c h => sleepLoop_reached_ge _ evs start c h,
    sleepLoop_resumes _ t rest pre hpre ht start, fun hlt => ?_⟩
  simp [target_tick, wrappingAdd, Nat.mod_eq_of_lt hlt]

theorem sleep_updates_threshold_coalescing_witness :
    WatchEvent.closed ∉ ([] : List WatchEvent) ∧ target_tick 0 3 ≤ 3 ∧
    ((∀ (evs : List WatchEvent) (c : Nat),
        sleepLoop (target_tick 0 3) evs 0 = some (SleepExit.reachedTarget, c) →
        target_tick 0 3 ≤ c) ∧
     (∃ c, sleepLoop (target_tick 0 3) ([] ++ WatchEvent.advanced 3 :: []) 0
        = some (SleepExit.reachedTarget, c) ∧ target_tick 0 3 ≤ c) ∧
     (0 + 3 < USIZE_MOD → target_tick 0 3 = 0 + 3)) :=
  ⟨by simp, by decide,
    sleep_updates_threshold_coalescing 0 3 3 [] [] (by simp) (by decide)⟩

/-- Claim C4 counterexample: the claim says that when the watch channel
closes during a sleep_updates suspension the call fails with the typed error
ClockClosed, distinguishable from a completed sleep. On the source, at the
concrete input below, the loop takes the early return path on closure and
the function returns the unit value, the very same result a successfully
completed sleep returns: there is no typed error and no way for the caller
to tell the two apart. -/
theorem sleep_updates_close_counterexample :
    sleepLoop (target_tick 0 3) [WatchEvent.closed] 0
      = some (SleepExit.watchErr, 0) ∧
    sleep_updates 0 3 [WatchEvent.closed] = some () ∧
    sleep_updates 0 3 [WatchEvent.closed] = sleep_updates 0 3 [WatchEvent.advanced 3] := by
  refine ⟨?_, ?_, ?_⟩ <;> decide

/-- Claim C4 (amended): if the watch channel closes while a task is
suspended in sleep_updates, the call returns early through the silent return
path with the unit value; no typed error is produced and the result is equal
to that of a sleep that completed by reaching its target. -/
theorem sleep_updates_close_silent (start n : Nat) (pre rest : List WatchEvent)
    (hstart : start < target_tick start n)
    (hpre : ∀ e ∈ pre, ∃ v, e = WatchEvent.advanced v ∧ v < target_tick start n) :
    ∃ c, sleepLoop (target_tick start n) (pre ++ WatchEvent.closed :: rest) start
          = some (SleepExit.watchErr, c) ∧
      sleep_updates start n (pre ++ WatchEvent.closed :: rest) = some () ∧
      sleep_updates start n (pre ++ WatchEvent.closed :: rest)
        = sleep_updates start n [WatchEvent.advanced (target_tick start n)] := by
  obtain ⟨c, hc, hcl⟩ := sleepLoop_closes (target_tick start n) rest pre hpre start hstart
  refine ⟨c, hc, ?_, ?_⟩
  · simp [sleep_updates, hc]
  · have hr : sleepLoop (target_tick start n) [WatchEvent.advanced (target_tick start n)] start
        = some (SleepExit.reachedTarget, target_tick start n) := by
      rw [sleepLoop_advanced_step _ start _ [] hstart]
      exact sleepLoop_not_lt _ _ [] (by omega)
    simp [sleep_updates, hc, hr]

theorem sleep_updates_close_silent_witness :
    0 < target_tick 0 3 ∧
    (∀ e ∈ ([] : List WatchEvent), ∃ v, e = WatchEvent.advanced v ∧ v < target_tick 0 3) ∧
    (∃ c, sleepLoop (target_tick 0 3) ([] ++ WatchEvent.closed :: []) 0
          = some (SleepExit.watchErr, c) ∧
      sleep_updates 0 3 ([] ++ WatchEvent.closed :: []) = some () ∧
      sleep_updates 0 3 ([] ++ WatchEvent.closed :: [])
        = sleep_updates 0 3 [WatchEvent.advanced (target_tick 0 3)]) :=
  ⟨by decide, by simp, sleep_updates_close_silent 0 3 [] [] (by decide) (by simp)⟩

/-- Claim C6: each increment_ticks call sets the stored counter to its old
value plus one modulo 2 ^ 64 (fetch_add wraps, it does not fault), the value
returned equals the new stored value, and the counter trajectory over any
number of consecutive calls is old value plus the call count, modulo 2 ^ 64:
successive reads of the counter are non-decreasing mod wraparound. -/
theorem increment_ticks_adds_one (t : Nat) (ht : t < USIZE_MOD) :
    (increment_ticks t).1 = (t + 1) % USIZE_MOD ∧
    (increment_ticks t).2 = (increment_ticks t).1 ∧
    ∀ k, advanceN t k = (t + k) % USIZE_MOD := by
  refine ⟨rfl, rfl, ?_⟩
  intro k
  induction k with
  | zero => simp [advanceN, Nat.mod_eq_of_lt ht]
  | succ k ih =>
    have hgoal : advanceN t (k + 1) = ((t + k) % USIZE_MOD + 1) % USIZE_MOD := by
      simp [advanceN, increment_ticks, ih]
    rw [hgoal, show t + (k + 1) = (t + k) + 1 from rfl, Nat.add_mod (t + k) 1,
      Nat.mod_eq_of_lt USIZE_MOD_one_lt]

theorem increment_ticks_adds_one_witness :
    5 < USIZE_MOD ∧
    ((increment_ticks 5).1 = (5 + 1) % USIZE_MOD ∧
     (increment_ticks 5).2 = (increment_ticks 5).1 ∧
     ∀ k, advanceN 5 k = (5 + k) % USIZE_MOD) :=
  ⟨by decide, increment_ticks_adds_one 5 (by decide)⟩

/-- Claim C9: sleep_updates computes its target with wrapping addition and
waits only while the current observation is strictly below that target under
plain unsigned comparison. Consequently sleep_updates(0) exits at once
through the while condition without consuming any observation, and when the
observed tick plus n overflows usize, the wrapped target is at or below the
observed tick and the call also exits at once rather than sleeping n
updates. -/
theorem sleep_updates_zero_and_overflow (start n : Nat) (evs : List WatchEvent)
    (hstart : start < USIZE_MOD) (hn : n < USIZE_MOD) :
    (n = 0 →
      sleepLoop (target_tick start n) evs start
        = some (SleepExit.reachedTarget, start) ∧
      sleep_updates start n evs = some ()) ∧
    (USIZE_MOD ≤ start + n →
      sleepLoop (target_tick start n) evs start
        = some (SleepExit.reachedTarget, start) ∧
      sleep_updates start n evs = some ()) := by
  constructor
  · intro hzero
    subst hzero
    have htg : target_tick start 0 = start := by
      simp [target_tick, wrappingAdd, Nat.mod_eq_of_lt hstart]
    have hrun := sleepLoop_not_lt (target_tick start 0) start evs (by omega)
    exact ⟨hrun, by simp [sleep_updates, hrun]⟩
  · intro hof
    have hmod : (start + n) % USIZE_MOD = start + n - USIZE_MOD := by
      rw [Nat.mod_eq_sub_mod hof]
      exact Nat.mod_eq_of_lt (by omega)
    have htg : target_tick start n ≤ start := by
      rw [target_tick, wrappingAdd, hmod]
      omega
    have hrun := sleepLoop_not_lt (target_tick start n) start evs (by omega)
    exact ⟨hrun, by simp [sleep_updates, hrun]⟩

theorem sleep_updates_zero_and_overflow_witness :
    USIZE_MOD - 1 < USIZE_MOD ∧ 2 < USIZE_MOD ∧ USIZE_MOD ≤ (USIZE_MOD - 1) + 2 ∧
    (sleepLoop (target_tick (USIZE_MOD - 1) 2) [] (USIZE_MOD - 1)
        = some (SleepExit.reachedTarget, USIZE_MOD - 1) ∧
      sleep_updates (USIZE_MOD - 1) 2 [] = some ()) :=
  ⟨by decide, by decide, by decide,
    (sleep_updates_zero_and_overflow (USIZE_MOD - 1) 2 [] (by decide) (by decide)).2
      (by decide)⟩

/-- Claim C5 counterexample: the claim says one world update first advances
the tick counter, then runs the channel bridge drain steps, then drains the
main thread queue. On the app as registered in lib.rs, the channel_to_event
drain system is in the PreUpdate schedule and tick_handle_update is in the
Update schedule, so the bridge drain runs before the tick advance: the trace
of one world update is not the claimed order. -/
theorem worldUpdateTrace_counterexample :
    worldUpdateTrace ≠
      [PumpStep.advanceTickStep, PumpStep.drainBridgeStep, PumpStep.drainQueueStep] := by
  decide

/-- Claim C5 (amended): within one world update the channel bridge drain
steps run first, in PreUpdate, then the tick counter is advanced, then the
main thread queue is drained, the latter two inside the Update stage system
tick_handle_update; the queued callbacks still execute with the post-advance
tick value, so a callback enqueued while the counter reads 5 observes
current_tick 6 when the next update drains it. -/
theorem worldUpdate_order_amended (σ : Type) (w : HubWorld σ)
    (hres : w.hasTicksRes = true) (hh : w.handlePresent = true) :
    worldUpdateTrace
      = [PumpStep.drainBridgeStep, PumpStep.advanceTickStep, PumpStep.drainQueueStep] ∧
    (tick_handle_update w).rest
      = execute_main_thread_work w.queue false ((increment_ticks w.ticks).2) w.rest ∧
    (tick_handle_update
        { hasTicksRes := true, ticks := 5, handlePresent := true,
          queue := [fun ctx => ctx.current_tick], rest := (0 : Nat) }).rest = 6 := by
  refine ⟨by decide, ?_, ?_⟩
  · simp [tick_handle_update, hres, hh]
  · decide

theorem worldUpdate_order_amended_witness :
    (HubWorld.mk true 0 true [] (0 : Nat)).hasTicksRes = true ∧
    (HubWorld.mk true 0 true [] (0 : Nat)).handlePresent = true ∧
    (worldUpdateTrace
      = [PumpStep.drainBridgeStep, PumpStep.advanceTickStep, PumpStep.drainQueueStep] ∧
     (tick_handle_update (HubWorld.mk true 0 true [] (0 : Nat))).rest
      = execute_main_thread_work (HubWorld.mk true 0 true [] (0 : Nat)).queue false
          ((increment_ticks (HubWorld.mk true 0 true [] (0 : Nat)).ticks).2)
          (HubWorld.mk true 0 true [] (0 : Nat)).rest ∧
     (tick_handle_update
        { hasTicksRes := true, ticks := 5, handlePresent := true,
          queue := [fun ctx => ctx.current_tick], rest := (0 : Nat) }).rest = 6) :=
  ⟨rfl, rfl, worldUpdate_order_amended Nat (HubWorld.mk true 0 true [] 0) rfl rfl⟩

/-- Claim C10: during each pump the TokioTasksHandle resource is removed
from the world before the queued callbacks run and reinserted after the
drain: every callback invocation receives a context in which the handle
resource is absent (the literal false below), while after tick_handle_update
returns the resource is present again; the queue is left empty, the
UpdateTicks resource is untouched, the counter holds the incremented value,
and the remaining world state is exactly the fold of the callbacks over the
previous remainder, so state no callback touches is unchanged. -/
theorem tick_handle_update_handle_absence (σ : Type) (w : HubWorld σ)
    (hres : w.hasTicksRes = true) (hh : w.handlePresent = true) :
    (tick_handle_update w).handlePresent = true ∧
    (tick_handle_update w).rest
      = execute_main_thread_work w.queue false ((increment_ticks w.ticks).2) w.rest ∧
    (tick_handle_update w).queue = [] ∧
    (tick_handle_update w).hasTicksRes = w.hasTicksRes ∧
    (tick_handle_update w).ticks = (increment_ticks w.ticks).1 := by
  simp [tick_handle_update, hres, hh]

theorem tick_handle_update_handle_absence_witness :
    (HubWorld.mk true 5 true [] (0 : Nat)).hasTicksRes = true ∧
    (HubWorld.mk true 5 true [] (0 : Nat)).handlePresent = true ∧
    ((tick_handle_update (HubWorld.mk true 5 true [] (0 : Nat))).handlePresent = true ∧
     (tick_handle_update (HubWorld.mk true 5 true [] (0 : Nat))).rest
      = execute_main_thread_work (HubWorld.mk true 5 true [] (0 : Nat)).queue false
          ((increment_ticks (HubWorld.mk true 5 true [] (0 : Nat)).ticks).2)
          (HubWorld.mk true 5 true [] (0 : Nat)).rest ∧
     (tick_handle_update (HubWorld.mk true 5 true [] (0 : Nat))).queue = [] ∧
     (tick_handle_update (HubWorld.mk true 5 true [] (0 : Nat))).hasTicksRes
      = (HubWorld.mk true 5 true [] (0 : Nat)).hasTicksRes ∧
     (tick_handle_update (HubWorld.mk true 5 true [] (0 : Nat))).ticks
      = (increment_ticks (HubWorld.mk true 5 true [] (0 : Nat)).ticks).1) :=
  ⟨rfl, rfl, tick_handle_update_handle_absence Nat (HubWorld.mk true 5 true [] 0) rfl rfl⟩

/-- Claim C7: on a world with no bridge registered, the first registration
of a channel bridge for an event type succeeds; a second registration for
the same type on the resulting world fails with DuplicateBridge (the
registration assertion); registrations for two distinct types both succeed;
and the drain step of either type never reads or writes the receiver or
event storage of the other. -/
theorem add_event_channel_duplicate (α β : Type) (app : EventApp α β)
    (ch ch2 : List α) (chB : List β)
    (hA : app.recvA = none) (hB : app.recvB = none) :
    (∃ app1, add_event_channel_A app ch = Except.ok app1 ∧
       add_event_channel_A app1 ch2 = Except.error RegisterError.DuplicateBridge ∧
       ∃ app2, add_event_channel_B app1 chB = Except.ok app2) ∧
    (∀ a : EventApp α β,
       (drain_A a).recvB = a.recvB ∧ (drain_A a).eventsB = a.eventsB ∧
       (drain_B a).recvA = a.recvA ∧ (drain_B a).eventsA = a.eventsA) := by
  constructor
  · refine ⟨{ app with recvA := some ch }, ?_, ?_, ?_⟩
    · simp [add_event_channel_A, hA]
    · simp [add_event_channel_A]
    · exact ⟨{ app with recvA := some ch, recvB := some chB },
        by simp [add_event_channel_B, hB]⟩
  · intro a
    refine ⟨?_, ?_, ?_, ?_⟩ <;>
      · cases h : a.recvA <;> cases h2 : a.recvB <;> simp [drain_A, drain_B, h, h2]

theorem add_event_channel_duplicate_witness :
    (EventApp.mk (α := Nat) (β := Bool) none none [] []).recvA = none ∧
    (EventApp.mk (α := Nat) (β := Bool) none none [] []).recvB = none ∧
    ((∃ app1, add_event_channel_A (EventApp.mk (α := Nat) (β := Bool) none none [] []) [1, 2]
        = Except.ok app1 ∧
       add_event_channel_A app1 [3] = Except.error RegisterError.DuplicateBridge ∧
       ∃ app2, add_event_channel_B app1 [true] = Except.ok app2) ∧
     (∀ a : EventApp Nat Bool,
       (drain_A a).recvB = a.recvB ∧ (drain_A a).eventsB = a.eventsB ∧
       (drain_B a).recvA = a.recvA ∧ (drain_B a).eventsA = a.eventsA)) :=
  ⟨rfl, rfl,
    add_event_channel_duplicate Nat Bool (EventApp.mk none none [] []) [1, 2] [3] [true]
      rfl rfl⟩

/-- Claim C8: a drain step over a registered bridge whose channel holds
[v1, v2, v3] publishes the three values into the event storage in enqueue
order and stops with the channel empty; a second drain step with no newly
sent values publishes nothing. -/
theorem drain_publishes_in_order (α β : Type) (app : EventApp α β) (v1 v2 v3 : α)
    (h : app.recvA = some [v1, v2, v3]) :
    (drain_A app).eventsA = app.eventsA ++ [v1, v2, v3] ∧
    (drain_A app).recvA = some [] ∧
    (drain_A (drain_A app)).eventsA = (drain_A app).eventsA := by
  have h1 : drain_A app
      = { app with recvA := some [], eventsA := app.eventsA ++ [v1, v2, v3] } := by
    simp [drain_A, h, channel_to_event_spec]
  refine ⟨by rw [h1], by rw [h1], ?_⟩
  rw [h1]
  simp [drain_A, channel_to_event_spec]

theorem drain_publishes_in_order_witness :
    (EventApp.mk (α := Nat) (β := Bool) (some [1, 2, 3]) none [] []).recvA
      = some [1, 2, 3] ∧
    ((drain_A (EventApp.mk (α := Nat) (β := Bool) (some [1, 2, 3]) none [] [])).eventsA
      = (EventApp.mk (α := Nat) (β := Bool) (some [1, 2, 3]) none [] []).eventsA
          ++ [1, 2, 3] ∧
     (drain_A (EventApp.mk (α := Nat) (β := Bool) (some [1, 2, 3]) none [] [])).recvA
      = some [] ∧
     (drain_A (drain_A (EventApp.mk (α := Nat) (β := Bool) (some [1, 2, 3]) none [] []))).eventsA
      = (drain_A (EventApp.mk (α := Nat) (β := Bool) (some [1, 2, 3]) none [] [])).eventsA) :=
  ⟨rfl, drain_publishes_in_order Nat Bool (EventApp.mk (some [1, 2, 3]) none [] []) 1 2 3 rfl⟩
